import Mathlib

/-!
Verification of the monitoring/anomaly core of the http-analytics-dashboard
repository: the per-target health evaluator of the `HTTPAnalyticsAgent` class
(agent source file), the global sliding-window anomaly detector (`analyze` in
`routes.ts`), the log-ingestion path (`addHttpLog` in `storage.ts`), and the
agent's state-management operations.

Timestamps are modelled as `Int` milliseconds (JavaScript `Date.now()` values);
fractional quantities (error rates, averages, variances) as `ℚ`, matching the
exact arithmetic the spec describes.  JavaScript's `x / 0 = NaN` combined with
`NaN > c = false` coincides with Rat's `x / 0 = 0` in every comparison the code
makes (all thresholds are positive), so division is embedded literally.
-/

/-! ## Sliding-window anomaly detector (`routes.ts`) -/

/-- `Metric` from `routes.ts`: `{ statusCode, responseTime?, timestamp }`.
`responseTime` is optional in the source (`responseTime?: number`), hence
`Option ℚ`. -/
structure Metric where
  statusCode : Int
  responseTime : Option ℚ
  timestamp : Int
  deriving DecidableEq

/-- `WINDOW_MS = 60_000` in `routes.ts`. -/
def WINDOW_MS : Int := 60000

/-- `MIN_SAMPLES = 10` in `routes.ts`. -/
def MIN_SAMPLES : Nat := 10

/-- Signal kinds returned by `analyze`. -/
inductive SignalType where
  | HIGH_ERROR_RATE
  | RESPONSE_TIME_SPIKE
  deriving DecidableEq

/-- The anomaly object `analyze` returns (the formatted `message` string is
presentation and is not modelled; `value` and `baseline` carry the same
numbers the source puts into it). `baseline` is only present on the
response-time-spike signal, hence `Option ℚ`. -/
structure Signal where
  type : SignalType
  severity : String
  value : ℚ
  baseline : Option ℚ
  deriving DecidableEq

/-- `pruneOld` from `routes.ts`: repeatedly `shift()` the front of the window
while the front entry's `timestamp < Date.now() - WINDOW_MS`.  The loop stops
at the first entry that is young enough, so only a prefix is ever removed. -/
def pruneOld (w : List Metric) (now : Int) : List Metric :=
  match w with
  | [] => []
  | m :: rest => if m.timestamp < now - WINDOW_MS then pruneOld rest now else m :: rest

/-- `mean` from `routes.ts`: `values.reduce((a,b) => a+b, 0) / values.length`. -/
def mean (values : List ℚ) : ℚ :=
  values.sum / values.length

/-- The variance computed inside `std` in `routes.ts` (population variance:
sum of squared deviations divided by the count). `std` itself returns
`Math.sqrt` of this; comparisons against `std` are phrased below through
`spikeFires`, which eliminates the square root algebraically. -/
def pvariance (values : List ℚ) (avg : ℚ) : ℚ :=
  (values.map (fun v => (v - avg) ^ 2)).sum / values.length

/-- The spike test `metric.responseTime > avg + 3 * deviation` from `routes.ts`,
where `deviation = Math.sqrt (pvariance values avg)`.  Since the square root is
nonnegative, `rt > avg + 3·√var` is equivalent to
`0 < rt - avg ∧ 9·var < (rt - avg)²`, which is exact and decidable over `ℚ`;
`spikeFires_iff_sqrt` below proves the equivalence against `Real.sqrt`. -/
def spikeFires (rt : ℚ) (values : List ℚ) : Bool :=
  let avg := mean values
  decide (0 < rt - avg ∧ 9 * pvariance values avg < (rt - avg) ^ 2)

/-- The latency-bearing samples of a window: `metricsWindow.map(m =>
m.responseTime).filter(v => typeof v === "number")` from `routes.ts`. -/
def latencyValues (w : List Metric) : List ℚ :=
  w.filterMap (fun x => x.responseTime)

/-- The 5xx error count of a window: `metricsWindow.filter(m => m.statusCode
>= 500).length` from `routes.ts`. -/
def errorCount (w : List Metric) : Nat :=
  (w.filter (fun x => decide (500 ≤ x.statusCode))).length

/-- `errors / metricsWindow.length` from `routes.ts`. -/
def errorRateOf (w : List Metric) : ℚ :=
  (errorCount w : ℚ) / (w.length : ℚ)

/-- `analyze` from `routes.ts`.  The source mutates a module-global
`metricsWindow`; here the window is threaded explicitly and the new window is
returned with the signal.  `now` stands for the `Date.now()` read inside
`pruneOld`.  The truthiness test `if (... && metric.responseTime)` is
`m.responseTime.getD 0 ≠ 0`: it fails exactly when the field is absent or `0`. -/
def analyze (w : List Metric) (m : Metric) (now : Int) : List Metric × Option Signal :=
  let w1 := pruneOld (w ++ [m]) now
  if w1.length < MIN_SAMPLES then (w1, none)
  else
    let errorRate := errorRateOf w1
    if (3 : ℚ) / 10 < errorRate then
      (w1, some { type := SignalType.HIGH_ERROR_RATE, severity := "critical",
                  value := errorRate, baseline := none })
    else
      let responseTimes := latencyValues w1
      if MIN_SAMPLES ≤ responseTimes.length ∧ m.responseTime.getD 0 ≠ 0 then
        let avg := mean responseTimes
        if spikeFires (m.responseTime.getD 0) responseTimes then
          (w1, some { type := SignalType.RESPONSE_TIME_SPIKE, severity := "warning",
                      value := m.responseTime.getD 0, baseline := some avg })
        else (w1, none)
      else (w1, none)

/-- The metric `addHttpLog` in `storage.ts` feeds to `analyze`:
`{ statusCode: httpLog.statusCode, timestamp: ..., responseTime: 0 }`. -/
def logMetric (statusCode : Int) (ts : Int) : Metric :=
  { statusCode := statusCode, responseTime := some 0, timestamp := ts }

/-! ## Per-target health evaluator (`HTTPAnalyticsAgent`) -/

/-- `EndpointCheckResult` from the agent source, restricted to the fields the
modelled operations inspect (`url`, `headers` and `error` are carried along by
the source but never read by the ring, the evaluator or the stats queries). -/
structure Check where
  status : Int
  responseTime : Int
  success : Bool
  timestamp : Int
  deriving DecidableEq

/-- The history-ring update in `monitorEndpoint`: `history.push(result); if
(history.length > 100) history.shift()`. -/
def recordCheck (history : List Check) (r : Check) : List Check :=
  let h2 := history ++ [r]
  if 100 < h2.length then h2.tail else h2

/-- `history.slice(-10)`: the last `min 10 (length)` entries in order. -/
def recentOf (history : List Check) : List Check :=
  history.drop (history.length - 10)

/-- The error-rate statistic of `analyzeEndpointHealth`:
`recentChecks.filter(c => !c.success).length / recentChecks.length`. -/
def checkErrorRate (recent : List Check) : ℚ :=
  ((recent.filter (fun c => !c.success)).length : ℚ) / (recent.length : ℚ)

/-- The latency statistic of `analyzeEndpointHealth`:
`recentChecks.reduce((sum,c) => sum + c.responseTime, 0) / recentChecks.length`. -/
def checkAvgResponseTime (recent : List Check) : ℚ :=
  (recent.map (fun c => (c.responseTime : ℚ))).sum / (recent.length : ℚ)

/-- `Array.from(new Set(statusCodes)).length`: the number of distinct status
codes among the sampled checks. -/
def distinctStatusCount (recent : List Check) : Nat :=
  ((recent.map (fun c => c.status)).dedup).length

/-- The cooldown test of `analyzeEndpointHealth`: `lastInsight && Date.now() -
lastInsight.getTime() < 5 * 60 * 1000`. -/
def cooldownActive (lastInsight : Option Int) (now : Int) : Bool :=
  match lastInsight with
  | none => false
  | some t => decide (now - t < 5 * 60 * 1000)

/-- `analyzeEndpointHealth` from the agent source, as a pure function of the
target's history, its `insightCache` entry (`lastInsight`) and the current
time.  It returns the target's new `insightCache` entry together with the list
of contexts passed to `generateInsight`, in source order — each element is one
triggered Insight emission.  The source first computes the three statistics,
then returns early if the cooldown is active; otherwise each of the three
rules that fires sets the cache to the current time and emits. -/
def analyzeEndpointHealth (history : List Check) (lastInsight : Option Int) (now : Int) :
    Option Int × List String :=
  let recent := recentOf history
  let errorRate := checkErrorRate recent
  let avgResponseTime := checkAvgResponseTime recent
  if cooldownActive lastInsight now then (lastInsight, [])
  else
    let s1 : Option Int × List String :=
      if (3 : ℚ) / 10 < errorRate then (some now, ["High error rate detected"])
      else (lastInsight, [])
    let s2 : Option Int × List String :=
      if (5000 : ℚ) < avgResponseTime then (some now, s1.2 ++ ["Slow response time detected"])
      else s1
    if 3 < distinctStatusCount recent then (some now, s2.2 ++ ["Unstable status codes detected"])
    else s2

/-! ## Agent state management (`HTTPAnalyticsAgent` fields and mutators) -/

/-- `EndpointMonitorConfig` from the agent source. -/
structure EndpointMonitorConfig where
  url : String
  interval : Int
  expectedStatus : Option (List Int)
  alertThreshold : Option Int

/-- The mutable fields of `HTTPAnalyticsAgent`.  The three `Map`s keyed by URL
are modelled as functions into `Option`; a registered timer handle carries no
further information, so `monitoringIntervals` maps to `Option Unit`. -/
structure AgentState where
  monitoringIntervals : String → Option Unit
  endpointHistory : String → Option (List Check)
  insightCache : String → Option Int
  isRunning : Bool

/-- The registration performed by `monitorEndpoint`:
`this.monitoringIntervals.set(config.url, intervalId)` (the probing callback
itself runs later, on timer ticks, and is modelled separately by
`recordCheck`/`analyzeEndpointHealth`). -/
def monitorEndpoint (s : AgentState) (config : EndpointMonitorConfig) : AgentState :=
  { s with monitoringIntervals :=
      fun u => if u = config.url then some () else s.monitoringIntervals u }

/-- `addEndpoint` from the agent source: throws when the agent is not running,
otherwise registers the target via `monitorEndpoint`.  A thrown error is the
`Except.error` branch; the caller's state is unchanged in that case. -/
def addEndpoint (s : AgentState) (config : EndpointMonitorConfig) :
    Except String AgentState :=
  if s.isRunning then Except.ok (monitorEndpoint s config)
  else Except.error "Agent is not running. Start monitoring first."

/-- `removeEndpoint` from the agent source: if a timer is registered for the
URL, clear it and delete the map entry; nothing else is touched. -/
def removeEndpoint (s : AgentState) (url : String) : AgentState :=
  match s.monitoringIntervals url with
  | some _ =>
      { s with monitoringIntervals := fun u => if u = url then none else s.monitoringIntervals u }
  | none => s

/-- `stopMonitoring` from the agent source: sets `isRunning := false`, clears
every timer and empties `monitoringIntervals`; nothing else is touched. -/
def stopMonitoring (s : AgentState) : AgentState :=
  { s with isRunning := false, monitoringIntervals := fun _ => none }

/-- Default used to totalise the `history[history.length - 1]` access in
`getEndpointStats` (the access is guarded by a non-emptiness check in the
source, so the default is never produced). -/
def defaultCheck : Check :=
  { status := 0, responseTime := 0, success := false, timestamp := 0 }

/-- The record `getEndpointStats` returns (the `toFixed` string formatting of
`successRate` and `avgResponseTime` is presentation and is kept as the exact
rational the source formats). -/
structure EndpointStats where
  url : String
  totalChecks : Nat
  successRate : ℚ
  avgResponseTime : ℚ
  statusCodes : List Int
  lastCheck : Check
  recentChecks : List Check
  deriving DecidableEq

/-- `getEndpointStats` from the agent source: `null` when the URL has no
recorded history (absent entry or empty list), otherwise the aggregate stats
over the whole history. -/
def getEndpointStats (endpointHistory : String → Option (List Check)) (url : String) :
    Option EndpointStats :=
  let history := (endpointHistory url).getD []
  if history.length = 0 then none
  else some
    { url := url
      totalChecks := history.length
      successRate := ((history.filter (fun h => h.success)).length : ℚ) / (history.length : ℚ) * 100
      avgResponseTime := (history.map (fun h => (h.responseTime : ℚ))).sum / (history.length : ℚ)
      statusCodes := (history.map (fun h => h.status)).dedup
      lastCheck := history.getLast?.getD defaultCheck
      recentChecks := history.drop (history.length - 10) }

/-! ## Concrete inputs used by witnesses and counterexamples -/

/-- A failing check with the given status code and a 6000 ms latency. -/
def failCheck (status : Int) : Check :=
  { status := status, responseTime := 6000, success := false, timestamp := 0 }

/-- Ten consecutive failing checks with ten distinct status codes: error rate
`1 > 0.3`, average latency `6000 > 5000`, and `10 > 3` distinct statuses — all
three health rules fire on this history. -/
def allRulesHistory : List Check :=
  [failCheck 500, failCheck 501, failCheck 502, failCheck 503, failCheck 504,
   failCheck 505, failCheck 506, failCheck 507, failCheck 508, failCheck 509]

/-- A history of ten checks of which exactly four fail (error rate `0.4`),
all fast and with two distinct statuses: only the error-rate rule fires. -/
def fourFailHistory : List Check :=
  [failCheck 500, failCheck 500, failCheck 500, failCheck 500,
   { status := 200, responseTime := 50, success := true, timestamp := 0 },
   { status := 200, responseTime := 50, success := true, timestamp := 0 },
   { status := 200, responseTime := 50, success := true, timestamp := 0 },
   { status := 200, responseTime := 50, success := true, timestamp := 0 },
   { status := 200, responseTime := 50, success := true, timestamp := 0 },
   { status := 200, responseTime := 50, success := true, timestamp := 0 }]

/-- A healthy metric with the given latency, observed at time 100000. -/
def okMetric (rt : Option ℚ) : Metric :=
  { statusCode := 200, responseTime := rt, timestamp := 100000 }

/-- Ten in-window samples with latency `-1000` each. -/
def negWindow : List Metric :=
  [okMetric (some (-1000)), okMetric (some (-1000)), okMetric (some (-1000)),
   okMetric (some (-1000)), okMetric (some (-1000)), okMetric (some (-1000)),
   okMetric (some (-1000)), okMetric (some (-1000)), okMetric (some (-1000)),
   okMetric (some (-1000))]

/-- Ten in-window samples with latency `100` each. -/
def calmWindow : List Metric :=
  [okMetric (some 100), okMetric (some 100), okMetric (some 100),
   okMetric (some 100), okMetric (some 100), okMetric (some 100),
   okMetric (some 100), okMetric (some 100), okMetric (some 100),
   okMetric (some 100)]

/-- A concrete agent state monitoring URL `"a"` with one recorded check and a
cooldown marker. -/
def sampleAgent : AgentState :=
  { monitoringIntervals := fun u => if u = "a" then some () else none
    endpointHistory := fun u => if u = "a" then some [defaultCheck] else none
    insightCache := fun u => if u = "a" then some 7 else none
    isRunning := true }

/-- A concrete stopped agent state. -/
def stoppedAgent : AgentState :=
  { monitoringIntervals := fun _ => none
    endpointHistory := fun _ => none
    insightCache := fun _ => none
    isRunning := false }

/-- A concrete monitoring configuration. -/
def sampleConfig : EndpointMonitorConfig :=
  { url := "https://example.com", interval := 60000, expectedStatus := some [200],
    alertThreshold := none }

/-- A concrete two-check history table for URL `"e"`. -/
def sampleHistories : String → Option (List Check) :=
  fun u => if u = "e" then
    some [{ status := 200, responseTime := 50, success := true, timestamp := 1 },
          { status := 503, responseTime := 70, success := false, timestamp := 2 }]
  else none




/-- A three-sample window: one sample 61 seconds old at time 100000 (timestamp
39000) and two in-window samples, in chronological order. -/
def warmupWindow : List Metric :=
  [{ statusCode := 200, responseTime := none, timestamp := 39000 },
   { statusCode := 200, responseTime := none, timestamp := 50000 },
   { statusCode := 200, responseTime := none, timestamp := 60000 }]

/-- A latency-free metric observed at time 100000. -/
def lateMetric : Metric :=
  { statusCode := 200, responseTime := none, timestamp := 100000 }

/-- Placeholder stats record (used only to project out of an `Option` that is
provably `some`). -/
def defaultStats : EndpointStats :=
  { url := "", totalChecks := 0, successRate := 0, avgResponseTime := 0,
    statusCodes := [], lastCheck := defaultCheck, recentChecks := [] }

/-! ## Helper lemmas -/

/-- When the cooldown is active, `analyzeEndpointHealth` leaves the cache
unchanged and emits nothing. -/
theorem analyzeEndpointHealth_active (h : List Check) (li : Option Int) (now : Int)
    (hc : cooldownActive li now = true) :
    analyzeEndpointHealth h li now = (li, []) := by
  simp only [analyzeEndpointHealth, hc, if_true]

/-- Closed form of `analyzeEndpointHealth` when the cooldown has expired. -/
theorem analyzeEndpointHealth_inactive (h : List Check) (li : Option Int) (now : Int)
    (hc : cooldownActive li now = false) :
    analyzeEndpointHealth h li now =
      ((if (3 : ℚ) / 10 < checkErrorRate (recentOf h) ∨
           (5000 : ℚ) < checkAvgResponseTime (recentOf h) ∨
           3 < distinctStatusCount (recentOf h)
        then some now else li),
       ((if (3 : ℚ) / 10 < checkErrorRate (recentOf h) then ["High error rate detected"] else []) ++
        (if (5000 : ℚ) < checkAvgResponseTime (recentOf h) then ["Slow response time detected"] else []) ++
        (if 3 < distinctStatusCount (recentOf h) then ["Unstable status codes detected"] else []))) := by
  simp only [analyzeEndpointHealth, hc]
  by_cases h1 : (3 : ℚ) / 10 < checkErrorRate (recentOf h) <;>
    by_cases h2 : (5000 : ℚ) < checkAvgResponseTime (recentOf h) <;>
      by_cases h3 : 3 < distinctStatusCount (recentOf h) <;>
        simp [h1, h2, h3]


/-- The window `analyze` leaves behind is always the pruned extended window,
whatever signal is produced. -/
theorem analyze_fst (w : List Metric) (m : Metric) (now : Int) :
    (analyze w m now).1 = pruneOld (w ++ [m]) now := by
  simp only [analyze]
  split_ifs <;> rfl

/-- Warm-up: below `MIN_SAMPLES` samples, `analyze` reports nothing. -/
theorem analyze_warmup (w : List Metric) (m : Metric) (now : Int)
    (h : (pruneOld (w ++ [m]) now).length < MIN_SAMPLES) :
    (analyze w m now).2 = none := by
  simp only [analyze, if_pos h]

/-- Past warm-up, with the 5xx error rate over `0.3`, `analyze` reports the
critical high-error-rate signal carrying the measured rate. -/
theorem analyze_error_stage (w : List Metric) (m : Metric) (now : Int)
    (h10 : ¬ (pruneOld (w ++ [m]) now).length < MIN_SAMPLES)
    (herr : (3 : ℚ) / 10 < errorRateOf (pruneOld (w ++ [m]) now)) :
    (analyze w m now).2 =
      some { type := SignalType.HIGH_ERROR_RATE, severity := "critical",
             value := errorRateOf (pruneOld (w ++ [m]) now), baseline := none } := by
  simp only [analyze, if_neg h10, if_pos herr]

/-- Past warm-up with an acceptable error rate, `analyze` reduces to the
response-time-spike stage. -/
theorem analyze_spike_stage (w : List Metric) (m : Metric) (now : Int)
    (h10 : ¬ (pruneOld (w ++ [m]) now).length < MIN_SAMPLES)
    (herr : ¬ (3 : ℚ) / 10 < errorRateOf (pruneOld (w ++ [m]) now)) :
    (analyze w m now).2 =
      (if MIN_SAMPLES ≤ (latencyValues (pruneOld (w ++ [m]) now)).length ∧
          m.responseTime.getD 0 ≠ 0 then
        (if spikeFires (m.responseTime.getD 0) (latencyValues (pruneOld (w ++ [m]) now)) then
          some { type := SignalType.RESPONSE_TIME_SPIKE, severity := "warning",
                 value := m.responseTime.getD 0,
                 baseline := some (mean (latencyValues (pruneOld (w ++ [m]) now))) }
        else none)
      else none) := by
  simp only [analyze, if_neg h10, if_neg herr]
  split_ifs <;> rfl


/-- Lists built from squares have nonnegative population variance. -/
theorem pvariance_nonneg (values : List ℚ) (avg : ℚ) : 0 ≤ pvariance values avg := by
  unfold pvariance
  apply div_nonneg
  · apply List.sum_nonneg
    intro x hx
    simp only [List.mem_map] at hx
    obtain ⟨v, _, rfl⟩ := hx
    positivity
  · positivity

/-- The algebraic spike test of `spikeFires` coincides with the source's
square-root formulation `responseTime > avg + 3 * Math.sqrt variance`. -/
theorem spikeFires_iff_sqrt (rt : ℚ) (values : List ℚ) :
    spikeFires rt values = true ↔
      ((rt : ℝ) > (mean values : ℝ) +
        3 * Real.sqrt ((pvariance values (mean values) : ℚ) : ℝ)) := by
  have hv : (0 : ℚ) ≤ pvariance values (mean values) := pvariance_nonneg _ _
  have hvR : (0 : ℝ) ≤ ((pvariance values (mean values) : ℚ) : ℝ) := by exact_mod_cast hv
  have h9 : Real.sqrt (9 * ((pvariance values (mean values) : ℚ) : ℝ)) =
      3 * Real.sqrt ((pvariance values (mean values) : ℚ) : ℝ) := by
    rw [show (9 : ℝ) = 3 ^ 2 by norm_num, Real.sqrt_mul (by positivity),
      Real.sqrt_sq (by norm_num)]
  simp only [spikeFires, decide_eq_true_eq]
  constructor
  · rintro ⟨h1, h2⟩
    have h1R : (0 : ℝ) < (rt : ℝ) - (mean values : ℝ) := by exact_mod_cast h1
    have h2R : 9 * ((pvariance values (mean values) : ℚ) : ℝ) <
        ((rt : ℝ) - (mean values : ℝ)) ^ 2 := by exact_mod_cast h2
    have hs := (Real.sqrt_lt' h1R).mpr h2R
    rw [h9] at hs
    linarith
  · intro hgt
    have hsq : 0 ≤ Real.sqrt ((pvariance values (mean values) : ℚ) : ℝ) := Real.sqrt_nonneg _
    have h1R : (0 : ℝ) < (rt : ℝ) - (mean values : ℝ) := by linarith
    have hs : Real.sqrt (9 * ((pvariance values (mean values) : ℚ) : ℝ)) <
        (rt : ℝ) - (mean values : ℝ) := by rw [h9]; linarith
    have h2R := (Real.sqrt_lt' h1R).mp hs
    exact ⟨by exact_mod_cast h1R, by exact_mod_cast h2R⟩

/-- On a chronologically ordered window, front pruning removes exactly the
entries strictly older than the cutoff. -/
theorem pruneOld_sorted (w : List Metric) (now : Int)
    (hs : w.Pairwise (fun a b => a.timestamp ≤ b.timestamp)) :
    pruneOld w now = w.filter (fun x => decide (now - WINDOW_MS ≤ x.timestamp)) := by
  induction w with
  | nil => rfl
  | cons a rest ih =>
      rw [List.pairwise_cons] at hs
      obtain ⟨ha, hrest⟩ := hs
      by_cases h : a.timestamp < now - WINDOW_MS
      · rw [pruneOld, if_pos h, List.filter_cons, ih hrest]
        have hd : decide (now - WINDOW_MS ≤ a.timestamp) = false := by
          simp only [decide_eq_false_iff_not, not_le]; exact h
        rw [hd]
        simp
      · rw [pruneOld, if_neg h, List.filter_cons]
        have hd : decide (now - WINDOW_MS ≤ a.timestamp) = true := by
          simp only [decide_eq_true_eq]; omega
        rw [hd]
        simp only [if_true]
        congr 1
        symm
        rw [List.filter_eq_self]
        intro b hb
        have := ha b hb
        simp only [decide_eq_true_eq]
        omega

/-- When the cooldown has expired, each rule message appears in the emission
list exactly when its threshold condition holds. -/
theorem mem_emits_iff (h : List Check) (li : Option Int) (now : Int)
    (hc : cooldownActive li now = false) :
    ("High error rate detected" ∈ (analyzeEndpointHealth h li now).2 ↔
      (3 : ℚ) / 10 < checkErrorRate (recentOf h)) ∧
    ("Slow response time detected" ∈ (analyzeEndpointHealth h li now).2 ↔
      (5000 : ℚ) < checkAvgResponseTime (recentOf h)) ∧
    ("Unstable status codes detected" ∈ (analyzeEndpointHealth h li now).2 ↔
      3 < distinctStatusCount (recentOf h)) := by
  rw [analyzeEndpointHealth_inactive h li now hc]
  by_cases e1 : (3 : ℚ) / 10 < checkErrorRate (recentOf h) <;>
    by_cases e2 : (5000 : ℚ) < checkAvgResponseTime (recentOf h) <;>
      by_cases e3 : 3 < distinctStatusCount (recentOf h) <;>
        simp [e1, e2, e3]

/-- When the cooldown has expired: any emission resets the cache to `now`, no
emission leaves it unchanged, and at most three emissions occur per pass. -/
theorem cache_after (h : List Check) (li : Option Int) (now : Int)
    (hc : cooldownActive li now = false) :
    ((analyzeEndpointHealth h li now).2 ≠ [] → (analyzeEndpointHealth h li now).1 = some now) ∧
    ((analyzeEndpointHealth h li now).2 = [] → (analyzeEndpointHealth h li now).1 = li) ∧
    (analyzeEndpointHealth h li now).2.length ≤ 3 := by
  rw [analyzeEndpointHealth_inactive h li now hc]
  by_cases e1 : (3 : ℚ) / 10 < checkErrorRate (recentOf h) <;>
    by_cases e2 : (5000 : ℚ) < checkAvgResponseTime (recentOf h) <;>
      by_cases e3 : 3 < distinctStatusCount (recentOf h) <;>
        simp [e1, e2, e3]

/-- Concrete evaluation: on `allRulesHistory` with an expired cooldown all
three rules fire in one pass. -/
theorem allRulesHistory_eval :
    analyzeEndpointHealth allRulesHistory none 0 =
      (some 0, ["High error rate detected", "Slow response time detected",
                "Unstable status codes detected"]) := by
  have hc : cooldownActive none 0 = false := rfl
  have hrec : recentOf allRulesHistory = allRulesHistory := by decide
  have h1 : (3 : ℚ) / 10 < checkErrorRate (recentOf allRulesHistory) := by
    rw [hrec]; norm_num [checkErrorRate, allRulesHistory, failCheck]
  have h2 : (5000 : ℚ) < checkAvgResponseTime (recentOf allRulesHistory) := by
    rw [hrec]; norm_num [checkAvgResponseTime, allRulesHistory, failCheck]
  have h3 : 3 < distinctStatusCount (recentOf allRulesHistory) := by decide
  rw [analyzeEndpointHealth_inactive _ _ _ hc]
  simp [h1, h2, h3]

/-! ## Claim theorems -/

/-- C1 counterexample: one evaluation pass with an expired cooldown in which
all three health rules fire triggers three Insight emissions for the same
target within the same instant — not at most one with the first rule
suppressing the others. -/
theorem cooldown_single_insight_counterexample :
    (analyzeEndpointHealth allRulesHistory none 0).2 =
      ["High error rate detected", "Slow response time detected",
       "Unstable status codes detected"] ∧
    ¬ (analyzeEndpointHealth allRulesHistory none 0).2.length ≤ 1 := by
  rw [allRulesHistory_eval]
  exact ⟨rfl, by norm_num⟩

/-- C1 amended: a single evaluation pass triggers at most three Insight
emissions (one per fired rule), and once a pass has emitted anything, every
evaluation pass in the following 5 minutes emits nothing for that target. -/
theorem cooldown_per_pass_emissions (h : List Check) (li : Option Int) (t : Int)
    (g : List Check) (t2 : Int) :
    (analyzeEndpointHealth h li t).2.length ≤ 3 ∧
    ((analyzeEndpointHealth h li t).2 ≠ [] → t2 - t < 5 * 60 * 1000 →
      (analyzeEndpointHealth g (analyzeEndpointHealth h li t).1 t2).2 = []) := by
  by_cases hc : cooldownActive li t = true
  · rw [analyzeEndpointHealth_active h li t hc]
    exact ⟨by norm_num, fun hne => absurd rfl hne⟩
  · have hcf : cooldownActive li t = false := by
      revert hc; cases cooldownActive li t <;> simp
    refine ⟨(cache_after h li t hcf).2.2, fun hne hlt => ?_⟩
    have hact : cooldownActive (some t) t2 = true := by
      simp only [cooldownActive, decide_eq_true_eq]; omega
    rw [(cache_after h li t hcf).1 hne, analyzeEndpointHealth_active g (some t) t2 hact]

/-- C1 amended, witness: after the triple emission of
`cooldown_single_insight_counterexample`'s scenario at time 0, a pass at time
1000 emits nothing. -/
theorem cooldown_per_pass_emissions_witness :
    (analyzeEndpointHealth allRulesHistory
        (analyzeEndpointHealth allRulesHistory none 0).1 1000).2 = [] := by
  refine (cooldown_per_pass_emissions allRulesHistory none 0 allRulesHistory 1000).2 ?_
    (by norm_num)
  rw [allRulesHistory_eval]
  simp

/-- C2: the cooldown is checked once per call — when active the call emits
nothing and leaves the cache untouched; when expired, each rule message is
emitted iff its threshold condition holds, any fired rule resets the cache to
the current time, a pass with no fired rule leaves the cache unchanged, and a
pass where all three conditions hold emits exactly three Insights. -/
theorem analyzeEndpointHealth_cooldown_gate (h : List Check) (li : Option Int) (now : Int) :
    (cooldownActive li now = true → analyzeEndpointHealth h li now = (li, [])) ∧
    (cooldownActive li now = false →
      (("High error rate detected" ∈ (analyzeEndpointHealth h li now).2 ↔
          (3 : ℚ) / 10 < checkErrorRate (recentOf h)) ∧
       ("Slow response time detected" ∈ (analyzeEndpointHealth h li now).2 ↔
          (5000 : ℚ) < checkAvgResponseTime (recentOf h)) ∧
       ("Unstable status codes detected" ∈ (analyzeEndpointHealth h li now).2 ↔
          3 < distinctStatusCount (recentOf h)) ∧
       ((analyzeEndpointHealth h li now).2 ≠ [] →
          (analyzeEndpointHealth h li now).1 = some now) ∧
       ((analyzeEndpointHealth h li now).2 = [] →
          (analyzeEndpointHealth h li now).1 = li) ∧
       ((3 : ℚ) / 10 < checkErrorRate (recentOf h) →
        (5000 : ℚ) < checkAvgResponseTime (recentOf h) →
        3 < distinctStatusCount (recentOf h) →
        (analyzeEndpointHealth h li now).2.length = 3))) := by
  refine ⟨analyzeEndpointHealth_active h li now, fun hc => ?_⟩
  obtain ⟨m1, m2, m3⟩ := mem_emits_iff h li now hc
  obtain ⟨c1, c2, _⟩ := cache_after h li now hc
  refine ⟨m1, m2, m3, c1, c2, fun e1 e2 e3 => ?_⟩
  rw [analyzeEndpointHealth_inactive h li now hc]
  simp [e1, e2, e3]

/-- C2 witness: at time 1000 with a cooldown stamp at 0 the call returns
unchanged state and no emissions; on `fourFailHistory` with no cooldown the
high-error-rate membership equivalence is produced by the theorem. -/
theorem analyzeEndpointHealth_cooldown_gate_witness :
    analyzeEndpointHealth [] (some 0) 1000 = (some 0, []) ∧
    ("High error rate detected" ∈ (analyzeEndpointHealth fourFailHistory none 0).2 ↔
      (3 : ℚ) / 10 < checkErrorRate (recentOf fourFailHistory)) :=
  ⟨(analyzeEndpointHealth_cooldown_gate [] (some 0) 1000).1 (by decide),
   ((analyzeEndpointHealth_cooldown_gate fourFailHistory none 0).2 rfl).1⟩

/-- C4: with the cooldown expired, the high-error-rate rule fires iff the
failure fraction over the last `min 10 (length)` records strictly exceeds
`0.3`; at exactly 3 failures of 10 it does not fire, at 4 or more of 10 it
does. -/
theorem high_error_rate_rule_threshold (h : List Check) (li : Option Int) (now : Int)
    (hcool : cooldownActive li now = false) :
    ("High error rate detected" ∈ (analyzeEndpointHealth h li now).2 ↔
      (3 : ℚ) / 10 < checkErrorRate (recentOf h)) ∧
    (recentOf h).length = min 10 h.length ∧
    (((recentOf h).length = 10 ∧ ((recentOf h).filter (fun c => !c.success)).length = 3) →
      "High error rate detected" ∉ (analyzeEndpointHealth h li now).2) ∧
    (((recentOf h).length = 10 ∧ 4 ≤ ((recentOf h).filter (fun c => !c.success)).length) →
      "High error rate detected" ∈ (analyzeEndpointHealth h li now).2) := by
  have hm := (mem_emits_iff h li now hcool).1
  refine ⟨hm, ?_, ?_, ?_⟩
  · simp only [recentOf, List.length_drop]
    omega
  · rintro ⟨hlen, hfail⟩
    rw [hm, checkErrorRate, hlen, hfail]
    norm_num
  · rintro ⟨hlen, hfail⟩
    rw [hm, checkErrorRate, hlen]
    have h4 : (4 : ℚ) ≤ (((recentOf h).filter (fun c => !c.success)).length : ℚ) := by
      exact_mod_cast hfail
    rw [div_lt_div_iff₀ (by norm_num) (by norm_num)]
    push_cast
    nlinarith

/-- C4 witness: on a 10-record history with exactly 4 failures the rule
fires. -/
theorem high_error_rate_rule_threshold_witness :
    "High error rate detected" ∈ (analyzeEndpointHealth fourFailHistory none 0).2 :=
  (high_error_rate_rule_threshold fourFailHistory none 0 rfl).2.2.2 ⟨by decide, by decide⟩

/-- C3: starting from an empty history, any sequence of record operations
leaves at most 100 entries; recording into a full (100-entry) history evicts
exactly the front entry and appends the new one at the back, keeping the
survivors in order. -/
theorem history_ring_bounded_fifo :
    (∀ rs : List Check, (rs.foldl recordCheck []).length ≤ 100) ∧
    (∀ (h : List Check) (r : Check), h.length = 100 → recordCheck h r = h.tail ++ [r]) := by
  constructor
  · have step : ∀ (h : List Check) (r : Check), h.length ≤ 100 →
        (recordCheck h r).length ≤ 100 := by
      intro h r hh
      simp only [recordCheck]
      split_ifs with hlen
      · simp only [List.length_tail, List.length_append, List.length_singleton]
        omega
      · simp only [List.length_append, List.length_singleton] at hlen ⊢
        omega
    have gen : ∀ (rs : List Check) (h : List Check), h.length ≤ 100 →
        (rs.foldl recordCheck h).length ≤ 100 := by
      intro rs
      induction rs with
      | nil => intro h hh; simpa using hh
      | cons r rest ih => intro h hh; exact ih _ (step h r hh)
    exact fun rs => gen rs [] (by simp)
  · intro h r hlen
    simp only [recordCheck]
    rw [if_pos (by simp [hlen])]
    cases h with
    | nil => simp at hlen
    | cons a t => simp

/-- C3 witness: recording into a history of exactly 100 entries drops the
front entry. -/
theorem history_ring_bounded_fifo_witness :
    recordCheck (List.replicate 100 defaultCheck) defaultCheck =
      (List.replicate 100 defaultCheck).tail ++ [defaultCheck] :=
  history_ring_bounded_fifo.2 (List.replicate 100 defaultCheck) defaultCheck (by simp)

/-- C7 counterexample: removing target `"a"` (which has a registered timer, a
one-entry history and a cooldown marker) cancels the timer but leaves both the
recorded history and the cooldown marker in place, as does stopping all
monitoring — the TargetState is not destroyed in its entirety. -/
theorem remove_endpoint_retains_state_counterexample :
    (removeEndpoint sampleAgent "a").monitoringIntervals "a" = none ∧
    (removeEndpoint sampleAgent "a").endpointHistory "a" = some [defaultCheck] ∧
    (removeEndpoint sampleAgent "a").insightCache "a" = some 7 ∧
    (stopMonitoring sampleAgent).endpointHistory "a" = some [defaultCheck] ∧
    (stopMonitoring sampleAgent).insightCache "a" = some 7 := by
  refine ⟨?_, rfl, rfl, rfl, rfl⟩
  simp [removeEndpoint, sampleAgent]

/-- C7 amended: `removeEndpoint` cancels and removes the target's repeating
timer and `stopMonitoring` clears all timers and the running flag, but both
retain every target's recorded probe history and cooldown marker unchanged. -/
theorem remove_endpoint_frame (s : AgentState) (url : String) :
    (removeEndpoint s url).endpointHistory = s.endpointHistory ∧
    (removeEndpoint s url).insightCache = s.insightCache ∧
    (removeEndpoint s url).isRunning = s.isRunning ∧
    (removeEndpoint s url).monitoringIntervals url = none ∧
    (stopMonitoring s).endpointHistory = s.endpointHistory ∧
    (stopMonitoring s).insightCache = s.insightCache ∧
    (stopMonitoring s).monitoringIntervals url = none ∧
    (stopMonitoring s).isRunning = false := by
  unfold removeEndpoint stopMonitoring
  cases hmi : s.monitoringIntervals url <;> simp [hmi]

/-- C8: adding a target while the agent is not running fails synchronously
with the invalid-operation error and never yields a new state (so no timer is
registered); it is not silently ignored. -/
theorem addEndpoint_requires_running (s : AgentState) (config : EndpointMonitorConfig)
    (h : s.isRunning = false) :
    addEndpoint s config = Except.error "Agent is not running. Start monitoring first." ∧
    ∀ s2, addEndpoint s config ≠ Except.ok s2 := by
  refine ⟨by simp [addEndpoint, h], fun s2 => by simp [addEndpoint, h]⟩

/-- C8 witness: a stopped agent rejects `addEndpoint`. -/
theorem addEndpoint_requires_running_witness :
    addEndpoint stoppedAgent sampleConfig =
      Except.error "Agent is not running. Start monitoring first." :=
  (addEndpoint_requires_running stoppedAgent sampleConfig rfl).1

/-- C6: on a chronologically ordered window, every call to `analyze` first
appends the sample and removes from the front exactly the entries strictly
older than 60 seconds before the current time (so a 61-second-old sample is
pruned), and whenever the pruned window holds fewer than 10 samples the call
returns no signal. -/
theorem prune_and_warmup (w : List Metric) (m : Metric) (now : Int)
    (hs : (w ++ [m]).Pairwise (fun a b => a.timestamp ≤ b.timestamp)) :
    (analyze w m now).1 = (w ++ [m]).filter (fun x => decide (now - 60000 ≤ x.timestamp)) ∧
    ((analyze w m now).1.length < 10 → (analyze w m now).2 = none) := by
  have h1 := analyze_fst w m now
  constructor
  · rw [h1, pruneOld_sorted (w ++ [m]) now hs]
    rfl
  · intro hlen
    rw [h1] at hlen
    exact analyze_warmup w m now hlen

/-- C6 witness: at time 100000, the 61-second-old sample (timestamp 39000) is
pruned, the three survivors are younger than 60 seconds, and the 3-sample
window yields no signal. -/
theorem prune_and_warmup_witness :
    (analyze warmupWindow lateMetric 100000).1 =
      [{ statusCode := 200, responseTime := none, timestamp := 50000 },
       { statusCode := 200, responseTime := none, timestamp := 60000 },
       { statusCode := 200, responseTime := none, timestamp := 100000 }] ∧
    (analyze warmupWindow lateMetric 100000).2 = none := by
  have hs : (warmupWindow ++ [lateMetric]).Pairwise
      (fun a b => a.timestamp ≤ b.timestamp) := by
    decide
  obtain ⟨h1, h2⟩ := prune_and_warmup warmupWindow lateMetric 100000 hs
  refine ⟨?_, h2 ?_⟩
  · rw [h1]; decide
  · rw [h1]; decide

/-- C9: the log-ingestion path calls `analyze` with `responseTime` fixed at 0,
which fails the spike branch's truthiness guard, so a persisted log can only
ever produce no signal or a high-error-rate signal — never a
response-time-spike signal. -/
theorem persisted_logs_never_spike (w : List Metric) (sc ts now : Int) :
    (analyze w (logMetric sc ts) now).2 = none ∨
    ∃ q, (analyze w (logMetric sc ts) now).2 =
      some { type := SignalType.HIGH_ERROR_RATE, severity := "critical",
             value := q, baseline := none } := by
  by_cases h10 : (pruneOld (w ++ [logMetric sc ts]) now).length < MIN_SAMPLES
  · exact Or.inl (analyze_warmup _ _ _ h10)
  · by_cases herr : (3 : ℚ) / 10 < errorRateOf (pruneOld (w ++ [logMetric sc ts]) now)
    · exact Or.inr ⟨_, analyze_error_stage _ _ _ h10 herr⟩
    · refine Or.inl ?_
      rw [analyze_spike_stage _ _ _ h10 herr]
      simp [logMetric]

/-- C10: `getEndpointStats` returns `null` exactly when the URL's history is
empty or absent; otherwise the returned stats' `recentChecks` is a suffix of
the history of length `min 10 (length)` (the last at-most-10 results in
order) and `lastCheck` is the most recently recorded result. -/
theorem getEndpointStats_contract (eh : String → Option (List Check)) (url : String) :
    (getEndpointStats eh url = none ↔ (eh url).getD [] = []) ∧
    (∀ s, getEndpointStats eh url = some s →
      (∃ p, (eh url).getD [] = p ++ s.recentChecks) ∧
      s.recentChecks.length = min 10 ((eh url).getD []).length ∧
      some s.lastCheck = ((eh url).getD []).getLast?) := by
  constructor
  · by_cases hl : ((eh url).getD []).length = 0
    · simp only [getEndpointStats, if_pos hl]
      simp [List.length_eq_zero.mp hl]
    · simp only [getEndpointStats, if_neg hl]
      simp only [reduceCtorEq, false_iff]
      intro hnil
      exact hl (by simp [hnil])
  · intro s hs
    simp only [getEndpointStats] at hs
    by_cases hl : ((eh url).getD []).length = 0
    · rw [if_pos hl] at hs
      cases hs
    · rw [if_neg hl] at hs
      have hs2 := Option.some.inj hs
      subst hs2
      refine ⟨⟨((eh url).getD []).take (((eh url).getD []).length - 10), ?_⟩, ?_, ?_⟩
      · exact (List.take_append_drop _ _).symm
      · simp only [List.length_drop]
        omega
      · cases hh : (eh url).getD [] with
        | nil => exact absurd (by simp [hh]) hl
        | cons a t =>
            have hne : a :: t ≠ [] := by simp
            rw [List.getLast?_eq_getLast (a :: t) hne]
            simp [hh, List.getLast?_eq_getLast (a :: t) hne]

/-- C10 witness: on the concrete two-entry history table the returned stats
satisfy the suffix, length and last-check properties. -/
theorem getEndpointStats_contract_witness :
    (∃ p, ((sampleHistories "e").getD []) =
      p ++ ((getEndpointStats sampleHistories "e").getD defaultStats).recentChecks) ∧
    ((getEndpointStats sampleHistories "e").getD defaultStats).recentChecks.length =
      min 10 ((sampleHistories "e").getD []).length ∧
    some ((getEndpointStats sampleHistories "e").getD defaultStats).lastCheck =
      ((sampleHistories "e").getD []).getLast? := by
  have hsome : getEndpointStats sampleHistories "e" =
      some ((getEndpointStats sampleHistories "e").getD defaultStats) := by
    cases hv : getEndpointStats sampleHistories "e" with
    | none =>
        exact absurd hv (by simp [getEndpointStats, sampleHistories])
    | some v => rfl
  exact (getEndpointStats_contract sampleHistories "e").2
    ((getEndpointStats sampleHistories "e").getD defaultStats) hsome

/-- C5 amended: past warm-up with an acceptable 5xx rate, the
response-time-spike warning is returned iff at least 10 window samples carry a
latency, the current sample carries a NONZERO latency (the source tests
`metric.responseTime` for truthiness, so a latency of `0` never spikes), and
the current latency exceeds the window mean plus three population standard
deviations; the signal carries the observed latency and the baseline mean, and
no signal other than the spike warning can be produced under these
hypotheses. -/
theorem response_time_spike_amended (w : List Metric) (m : Metric) (now : Int)
    (h10 : 10 ≤ (pruneOld (w ++ [m]) now).length)
    (herr : ¬ (3 : ℚ) / 10 < errorRateOf (pruneOld (w ++ [m]) now)) :
    ((analyze w m now).2 =
        some { type := SignalType.RESPONSE_TIME_SPIKE, severity := "warning",
               value := m.responseTime.getD 0,
               baseline := some (mean (latencyValues (pruneOld (w ++ [m]) now))) } ↔
      (m.responseTime.getD 0 ≠ 0 ∧
       10 ≤ (latencyValues (pruneOld (w ++ [m]) now)).length ∧
       ((m.responseTime.getD 0 : ℝ) >
         (mean (latencyValues (pruneOld (w ++ [m]) now)) : ℝ) +
         3 * Real.sqrt ((pvariance (latencyValues (pruneOld (w ++ [m]) now))
             (mean (latencyValues (pruneOld (w ++ [m]) now))) : ℚ) : ℝ)))) ∧
    ((analyze w m now).2 = none ∨
      ∃ sig, (analyze w m now).2 = some sig ∧ sig.type = SignalType.RESPONSE_TIME_SPIKE) := by
  have hst := analyze_spike_stage w m now (not_lt.mpr h10) herr
  rw [hst]
  constructor
  · constructor
    · intro heq
      by_cases hg : MIN_SAMPLES ≤ (latencyValues (pruneOld (w ++ [m]) now)).length ∧
          m.responseTime.getD 0 ≠ 0
      · rw [if_pos hg] at heq
        by_cases hsp : spikeFires (m.responseTime.getD 0)
            (latencyValues (pruneOld (w ++ [m]) now)) = true
        · exact ⟨hg.2, hg.1, (spikeFires_iff_sqrt _ _).mp hsp⟩
        · rw [if_neg hsp] at heq; cases heq
      · rw [if_neg hg] at heq; cases heq
    · rintro ⟨h1, h2, h3⟩
      rw [if_pos ⟨h2, h1⟩, if_pos ((spikeFires_iff_sqrt _ _).mpr h3)]
  · by_cases hg : MIN_SAMPLES ≤ (latencyValues (pruneOld (w ++ [m]) now)).length ∧
        m.responseTime.getD 0 ≠ 0
    · rw [if_pos hg]
      by_cases hsp : spikeFires (m.responseTime.getD 0)
          (latencyValues (pruneOld (w ++ [m]) now)) = true
      · rw [if_pos hsp]; exact Or.inr ⟨_, rfl, rfl⟩
      · rw [if_neg hsp]; exact Or.inl rfl
    · rw [if_neg hg]; exact Or.inl rfl

/-- C5 amended, witness: ten calm 100 ms samples and a 10000 ms current sample
produce the spike warning with baseline mean 1000 ms. -/
theorem response_time_spike_amended_witness :
    (analyze calmWindow (okMetric (some 10000)) 100000).2 =
      some { type := SignalType.RESPONSE_TIME_SPIKE, severity := "warning",
             value := (okMetric (some 10000)).responseTime.getD 0,
             baseline := some (mean (latencyValues
               (pruneOld (calmWindow ++ [okMetric (some 10000)]) 100000))) } := by
  have h10 : 10 ≤ (pruneOld (calmWindow ++ [okMetric (some 10000)]) 100000).length := by
    decide
  have herr : ¬ (3 : ℚ) / 10 <
      errorRateOf (pruneOld (calmWindow ++ [okMetric (some 10000)]) 100000) := by
    have hec : errorCount (pruneOld (calmWindow ++ [okMetric (some 10000)]) 100000) = 0 := by
      decide
    have hl : (pruneOld (calmWindow ++ [okMetric (some 10000)]) 100000).length = 11 := by
      decide
    rw [errorRateOf, hec, hl]; norm_num
  have hlv : latencyValues (pruneOld (calmWindow ++ [okMetric (some 10000)]) 100000) =
      [100, 100, 100, 100, 100, 100, 100, 100, 100, 100, 10000] := by
    decide
  have hm : mean [(100 : ℚ), 100, 100, 100, 100, 100, 100, 100, 100, 100, 10000] = 1000 := by
    norm_num [mean]
  have hsp : spikeFires ((okMetric (some 10000)).responseTime.getD 0)
      (latencyValues (pruneOld (calmWindow ++ [okMetric (some 10000)]) 100000)) = true := by
    rw [hlv]
    simp only [spikeFires, hm, decide_eq_true_eq, okMetric]
    constructor
    · norm_num
    · norm_num [pvariance, hm]
  refine (response_time_spike_amended calmWindow (okMetric (some 10000)) 100000 h10 herr).1.mpr
    ⟨by norm_num [okMetric], ?_, (spikeFires_iff_sqrt _ _).mp hsp⟩
  rw [hlv]
  norm_num

/-- C5 counterexample: a window of ten `-1000` ms samples and a current sample
that carries latency `0` satisfies every condition of the claim as stated —
warm-up passed, 5xx rate acceptable, at least 10 latency-bearing samples, the
current sample carries a latency, and that latency exceeds mean plus three
standard deviations — yet `analyze` returns no signal, because the source's
truthiness test rejects the latency value `0`. -/
theorem response_time_spike_truthiness_counterexample :
    (analyze negWindow (okMetric (some 0)) 100000).2 = none ∧
    (okMetric (some 0)).responseTime.isSome = true ∧
    10 ≤ (pruneOld (negWindow ++ [okMetric (some 0)]) 100000).length ∧
    ¬ (3 : ℚ) / 10 < errorRateOf (pruneOld (negWindow ++ [okMetric (some 0)]) 100000) ∧
    10 ≤ (latencyValues (pruneOld (negWindow ++ [okMetric (some 0)]) 100000)).length ∧
    (((okMetric (some 0)).responseTime.getD 0 : ℝ) >
      (mean (latencyValues (pruneOld (negWindow ++ [okMetric (some 0)]) 100000)) : ℝ) +
      3 * Real.sqrt ((pvariance (latencyValues (pruneOld (negWindow ++ [okMetric (some 0)]) 100000))
          (mean (latencyValues (pruneOld (negWindow ++ [okMetric (some 0)]) 100000))) : ℚ) : ℝ)) := by
  have h10 : ¬ (pruneOld (negWindow ++ [okMetric (some 0)]) 100000).length < MIN_SAMPLES := by
    decide
  have herr : ¬ (3 : ℚ) / 10 <
      errorRateOf (pruneOld (negWindow ++ [okMetric (some 0)]) 100000) := by
    have hec : errorCount (pruneOld (negWindow ++ [okMetric (some 0)]) 100000) = 0 := by
      decide
    have hl : (pruneOld (negWindow ++ [okMetric (some 0)]) 100000).length = 11 := by
      decide
    rw [errorRateOf, hec, hl]; norm_num
  have hlv : latencyValues (pruneOld (negWindow ++ [okMetric (some 0)]) 100000) =
      [-1000, -1000, -1000, -1000, -1000, -1000, -1000, -1000, -1000, -1000, 0] := by
    decide
  have hm : mean [(-1000 : ℚ), -1000, -1000, -1000, -1000, -1000, -1000, -1000, -1000,
      -1000, 0] = -10000 / 11 := by
    norm_num [mean]
  have hsp : spikeFires ((okMetric (some 0)).responseTime.getD 0)
      (latencyValues (pruneOld (negWindow ++ [okMetric (some 0)]) 100000)) = true := by
    rw [hlv]
    simp only [spikeFires, hm, decide_eq_true_eq, okMetric]
    constructor
    · norm_num
    · norm_num [pvariance, hm]
  refine ⟨?_, rfl, by decide, herr, by rw [hlv]; norm_num,
    (spikeFires_iff_sqrt _ _).mp hsp⟩
  rw [analyze_spike_stage negWindow (okMetric (some 0)) 100000 h10 herr]
  simp [okMetric]
